import Mathlib

/-!
Verification of the ai-stack-platform repository: a shallow embedding of
the dashboard's deploy flow (frontend/app/templates/page.tsx and its
variant), the route-guard middleware (frontend/middleware.ts), the
deployments page (frontend/app/deployments/page.tsx), and the relational
schema with its row-level-security policies, foreign keys and cascades
(database.sql), together with theorems settling the specification's
claims about them.
-/

namespace AiStack

/-! ## Frontend: route-guard middleware (frontend/middleware.ts) -/

/-- Result of the Next.js middleware: either a redirect response or
passing the request through unchanged (NextResponse.next()). -/
inductive MwResult where
  | redirect (url : String)
  | next
deriving DecidableEq, Repr

/-- Prefix test mirroring JavaScript's String.prototype.startsWith as used
in middleware.ts. -/
def strStartsWith (s p : String) : Bool :=
  p.data.isPrefixOf s.data

/-- The public routes listed in middleware.ts that need no session. -/
def publicRoutes : List String := ["/login", "/signup", "/auth/callback"]

/-- The middleware of frontend/middleware.ts: given whether a session
exists and the request pathname, redirect to /login when there is no
session, the path is not public, and the path is not the root. -/
def middleware (hasSession : Bool) (pathname : String) : MwResult :=
  let isPublicRoute := publicRoutes.any (fun route => strStartsWith pathname route)
  if !hasSession && !isPublicRoute && pathname != "/" then
    MwResult.redirect "/login"
  else
    MwResult.next

/-! ## Frontend: the dashboard deploy flow (handleDeploy in
frontend/app/templates/page.tsx and src/unnamed/part_001) -/

/-- An HTTP request body sent by handleDeploy: either the
POST /create-subscription body (plan_type, payment_method_id) or the
POST /deploy body (template_id, payment_method_id). -/
inductive Request where
  | createSubscription (planType : String) (paymentMethodId : String)
  | deployCall (templateId : String) (paymentMethodId : String)
deriving DecidableEq, Repr

/-- The payment_method_id field carried by either request body. -/
def Request.paymentMethodId : Request → String
  | .createSubscription _ p => p
  | .deployCall _ p => p

/-- The plan_type (subscription body) or template_id (deploy body) field. -/
def Request.bodyId : Request → String
  | .createSubscription t _ => t
  | .deployCall t _ => t

/-- Whether the request is the POST /deploy request. -/
def Request.isDeployCall : Request → Bool
  | .deployCall _ _ => true
  | _ => false

/-- User-visible outcome of handleDeploy: the sign-in alert, the
caught-error alert, or the success alert with the deployment URL. -/
inductive DeployOutcome where
  | notSignedIn
  | errorMsg (msg : String)
  | success (url : String)
deriving DecidableEq, Repr

/-- The handleDeploy function of the templates page. The user argument is
the client-side user state (None when not signed in); subOk and deployOk
are the ok flags of the two fetch responses; deployUrl is the url field of
the deploy response body. Returns the outcome surfaced to the user and
the list of requests sent, in order. -/
def handleDeploy (user : Option String) (templateId tier : String)
    (subOk deployOk : Bool) (deployUrl : String) :
    DeployOutcome × List Request :=
  match user with
  | none => (DeployOutcome.notSignedIn, [])
  | some _ =>
    let subReq := Request.createSubscription (templateId ++ "-" ++ tier) "pm_card_visa"
    if !subOk then
      (DeployOutcome.errorMsg "Failed to create subscription", [subReq])
    else
      let depReq := Request.deployCall (templateId ++ "-" ++ tier) "pm_card_visa"
      if !deployOk then
        (DeployOutcome.errorMsg "Failed to deploy", [subReq, depReq])
      else
        (DeployOutcome.success deployUrl, [subReq, depReq])

/-! ## Schema: tables of database.sql

UUIDs are modelled as Nat identifiers, TIMESTAMPTZ as Nat, JSONB as a
String payload. NOT NULL columns are plain fields; nullable columns are
Option fields. -/

/-- A row of the user_profiles table. -/
structure UserProfileRow where
  id : Nat
  email : String
  fullName : Option String
  createdAt : Nat
  updatedAt : Nat
deriving DecidableEq, Repr

/-- A row of the subscriptions table. -/
structure SubscriptionRow where
  id : Nat
  userId : Nat
  userEmail : String
  stripeSubscriptionId : String
  planType : String
  status : String
  createdAt : Nat
  updatedAt : Nat
deriving DecidableEq, Repr

/-- A row of the deployments table. droplet_id, url, status,
subscription_id and update_schedule are nullable columns. -/
structure DeploymentRow where
  id : Nat
  userId : Nat
  userEmail : String
  templateId : String
  dropletId : Option String
  url : Option String
  status : Option String
  createdAt : Nat
  updatedAt : Nat
  subscriptionId : Option Nat
  autoUpdateEnabled : Bool
  updateSchedule : Option String
deriving DecidableEq, Repr

/-- A row of the update_history table; deployment_id is nullable. -/
structure UpdateHistoryRow where
  id : Nat
  deploymentId : Option Nat
  updatedAt : Nat
  details : String
deriving DecidableEq, Repr

/-- The persistent store: the four tables of database.sql. -/
structure DB where
  userProfiles : List UserProfileRow
  subscriptions : List SubscriptionRow
  deployments : List DeploymentRow
  updateHistory : List UpdateHistoryRow
deriving DecidableEq, Repr

/-- SQL command kinds governed by row-level-security policies. -/
inductive SQLCmd where
  | select
  | insert
  | update
  | delete
deriving DecidableEq, Repr

/-! ## Schema: row-level-security policies of database.sql

RLS is enabled on every table, so a command on a row succeeds only if
some policy for that command permits it; a command with no policy is
denied. Each function below enumerates exactly the CREATE POLICY
statements of its table. -/

/-- user_profiles policies: view own profile (SELECT), update own
profile (UPDATE); no INSERT or DELETE policy. -/
def userProfilesPolicyAllows (uid : Nat) (cmd : SQLCmd) (row : UserProfileRow) : Bool :=
  match cmd with
  | .select => uid == row.id
  | .update => uid == row.id
  | .insert => false
  | .delete => false

/-- subscriptions policies: view own (SELECT USING auth.uid() = user_id),
create own (INSERT WITH CHECK auth.uid() = user_id); no UPDATE or DELETE
policy. -/
def subscriptionsPolicyAllows (uid : Nat) (cmd : SQLCmd) (row : SubscriptionRow) : Bool :=
  match cmd with
  | .select => uid == row.userId
  | .insert => uid == row.userId
  | .update => false
  | .delete => false

/-- deployments policies: view own (SELECT), create own (INSERT WITH
CHECK), update own (UPDATE USING); no DELETE policy. -/
def deploymentsPolicyAllows (uid : Nat) (cmd : SQLCmd) (row : DeploymentRow) : Bool :=
  match cmd with
  | .select => uid == row.userId
  | .insert => uid == row.userId
  | .update => uid == row.userId
  | .delete => false

/-- update_history policy: only SELECT, permitted when a deployments row
exists with deployments.id = update_history.deployment_id and
deployments.user_id = auth.uid(); the SQL EXISTS never holds when
deployment_id is NULL. No INSERT, UPDATE or DELETE policy. -/
def updateHistoryPolicyAllows (db : DB) (uid : Nat) (cmd : SQLCmd)
    (row : UpdateHistoryRow) : Bool :=
  match cmd with
  | .select =>
    match row.deploymentId with
    | some did => db.deployments.any (fun d => d.id == did && d.userId == uid)
    | none => false
  | _ => false

/-! ## Schema: insert admissibility (RLS plus foreign keys) -/

/-- Whether the schema admits inserting deployment row d as caller uid:
the RLS INSERT policy (auth.uid() = user_id), the user_id foreign key
into user_profiles, and the subscription_id foreign key into
subscriptions, which only requires the referenced row to exist when
subscription_id is non-NULL. -/
def deploymentInsertAdmissible (db : DB) (uid : Nat) (d : DeploymentRow) : Bool :=
  (uid == d.userId) &&
  db.userProfiles.any (fun p => p.id == d.userId) &&
  (match d.subscriptionId with
   | none => true
   | some sid => db.subscriptions.any (fun s => s.id == sid))

/-- Whether the schema admits inserting update_history row h: the
deployment_id foreign key, which is satisfied by NULL or by any existing
deployments row with that id. -/
def updateHistoryInsertAdmissible (db : DB) (h : UpdateHistoryRow) : Bool :=
  match h.deploymentId with
  | none => true
  | some did => db.deployments.any (fun d => d.id == did)

/-! ## Schema: delete cascades of database.sql -/

/-- Deleting a deployments row: rows of update_history referencing it are
cascade-deleted (deployment_id REFERENCES deployments ON DELETE CASCADE). -/
def deleteDeployment (db : DB) (did : Nat) : DB :=
  { db with
    deployments := db.deployments.filter (fun d => d.id != did)
    updateHistory := db.updateHistory.filter (fun h => h.deploymentId != some did) }

/-- Deleting a user_profiles row: its subscriptions and deployments rows
are cascade-deleted (user_id REFERENCES user_profiles ON DELETE CASCADE);
update_history rows of the deleted deployments cascade away in turn; a
surviving deployment referencing a deleted subscription has its
subscription_id set to NULL (ON DELETE SET NULL). -/
def deleteUserProfile (db : DB) (u : Nat) : DB :=
  let removedSubs := db.subscriptions.filter (fun s => s.userId == u)
  let keptDeps := db.deployments.filter (fun d => d.userId != u)
  let keptDeps := keptDeps.map (fun d =>
    match d.subscriptionId with
    | some sid =>
      if removedSubs.any (fun s => s.id == sid) then
        { d with subscriptionId := none }
      else d
    | none => d)
  { userProfiles := db.userProfiles.filter (fun p => p.id != u)
    subscriptions := db.subscriptions.filter (fun s => s.userId != u)
    deployments := keptDeps
    updateHistory := db.updateHistory.filter (fun h =>
      match h.deploymentId with
      | some did => !(db.deployments.any (fun d => d.id == did && d.userId == u))
      | none => true) }

/-- Whether the schema admits an UPDATE of deployments row oldRow into
newRow as caller uid: the RLS UPDATE policy USING (auth.uid() = user_id),
which, absent a WITH CHECK clause, also applies to the updated row. The
schema imposes no constraint on the status column (an unconstrained
nullable TEXT). -/
def deploymentUpdateAdmissible (uid : Nat) (oldRow newRow : DeploymentRow) : Bool :=
  (uid == oldRow.userId) && (uid == newRow.userId)

/-! ## Frontend: the deployments page (frontend/app/deployments/page.tsx) -/

/-- One entry of the hard-coded dummyDeployments list the page renders. -/
structure DummyDeployment where
  id : String
  name : String
  template : String
  status : String
  url : String
  created : String
  plan : String
deriving DecidableEq, Repr

/-- The dummyDeployments constant of frontend/app/deployments/page.tsx;
the Deployments component maps over exactly this list, in this order. -/
def dummyDeployments : List DummyDeployment :=
  [ { id := "1", name := "Notary AI Assistant", template := "Document Analysis",
      status := "running", url := "https://notary-ai-1.yourdomain.com",
      created := "2024-01-15", plan := "Pro" },
    { id := "2", name := "Smart Document Processor", template := "PDF Analysis",
      status := "deploying", url := "https://doc-processor-2.yourdomain.com",
      created := "2024-01-18", plan := "Basic" },
    { id := "3", name := "ID Verification System", template := "Identity Check",
      status := "stopped", url := "https://id-verify-3.yourdomain.com",
      created := "2024-01-20", plan := "Enterprise" } ]

/-- Lexicographic order on character lists by codepoint. -/
def charListLe : List Char → List Char → Bool
  | [], _ => true
  | _ :: _, [] => false
  | a :: as, b :: bs =>
    if a.toNat < b.toNat then true
    else if b.toNat < a.toNat then false
    else charListLe as bs

/-- Lexicographic order on strings by codepoint, which on ISO dates is
chronological order. -/
def strLe (a b : String) : Bool := charListLe a.data b.data

/-- Whether a list of date strings is in descending (newest-first)
order. -/
def isDescendingOn : List String → Bool
  | [] => true
  | [_] => true
  | a :: b :: t => strLe b a && isDescendingOn (b :: t)

/-- Insert a deployment row into a list kept in descending created_at
order. -/
def insertByCreatedDesc (d : DeploymentRow) : List DeploymentRow → List DeploymentRow
  | [] => [d]
  | x :: t =>
    if x.createdAt ≤ d.createdAt then d :: x :: t
    else x :: insertByCreatedDesc d t

/-- Sort deployment rows by created_at descending (insertion sort). -/
def sortByCreatedDesc (l : List DeploymentRow) : List DeploymentRow :=
  l.foldr insertByCreatedDesc []

/-- Modelled from the spec: the listDeployments contract of spec section
4.4 (no implementation reads the store in src/; the deployments page
renders a constant). Returns the caller's deployment rows ordered by
creation time descending, with no mutation. -/
def listDeploymentsSpec (caller : Nat) (db : DB) : List DeploymentRow :=
  sortByCreatedDesc (db.deployments.filter (fun d => d.userId == caller))

/-! ## Backend: the deploy endpoint -/

/-- Outcome of the infrastructure provider's provisioning request. -/
inductive ProvisionResult where
  | ok (dropletId : String) (url : String)
  | err
deriving DecidableEq, Repr

/-- Response of the deploy endpoint. -/
inductive DeployResponse where
  | ok (deploymentId : Nat) (url : String)
  | provisioningFailed
deriving DecidableEq, Repr

/-- Modelled from the spec: the backend POST /deploy handler (spec
section 4.3) is not among the source files; only its dashboard caller
and the schema are. Per the spec it forwards a provisioning request to
the infrastructure provider; on success it persists a Deployment row
with status deploying and the returned resource reference and URL; on
provider failure it fails with ProvisioningFailed and does not create a
Deployment row. Returns the resulting store and the response. -/
def deploy (db : DB) (uid : Nat) (email templateId : String)
    (newId now : Nat) (pr : ProvisionResult) : DB × DeployResponse :=
  match pr with
  | .err => (db, DeployResponse.provisioningFailed)
  | .ok dropletId url =>
    let row : DeploymentRow :=
      { id := newId, userId := uid, userEmail := email,
        templateId := templateId, dropletId := some dropletId,
        url := some url, status := some "deploying",
        createdAt := now, updatedAt := now, subscriptionId := none,
        autoUpdateEnabled := false, updateSchedule := none }
    ({ db with deployments := row :: db.deployments }, DeployResponse.ok newId url)

/-! ## The spec's Deployment.status state machine (for comparison) -/

/-- Follows the spec's words (section 4.4): the allowed edges of the
Deployment.status state machine, pending to deploying, deploying to
running or failed, running to stopped or failed; failed and stopped are
terminal. Stated for comparison with what the schema admits. -/
def specStatusEdge (a b : String) : Bool :=
  (a == "pending" && b == "deploying") ||
  (a == "deploying" && (b == "running" || b == "failed")) ||
  (a == "running" && (b == "stopped" || b == "failed"))

/-! ## Concrete example rows and stores -/

/-- Example user profile, id 1. -/
def profileEx : UserProfileRow :=
  { id := 1, email := "a@example.com", fullName := none, createdAt := 0, updatedAt := 0 }

/-- Example user profile, id 2. -/
def profileEx2 : UserProfileRow :=
  { id := 2, email := "b@example.com", fullName := none, createdAt := 0, updatedAt := 0 }

/-- A subscription of user 1 whose status is canceled. -/
def canceledSub : SubscriptionRow :=
  { id := 10, userId := 1, userEmail := "a@example.com",
    stripeSubscriptionId := "sub_123", planType := "notary-assistant-basic",
    status := "canceled", createdAt := 0, updatedAt := 0 }

/-- An active subscription of user 2. -/
def activeSubOfUser2 : SubscriptionRow :=
  { id := 11, userId := 2, userEmail := "b@example.com",
    stripeSubscriptionId := "sub_456", planType := "notary-assistant-pro",
    status := "active", createdAt := 0, updatedAt := 0 }

/-- A store with one profile and one canceled subscription; no
deployments, no history. -/
def dbEx : DB :=
  { userProfiles := [profileEx], subscriptions := [canceledSub],
    deployments := [], updateHistory := [] }

/-- A store with two profiles and one subscription each. -/
def dbEx2 : DB :=
  { userProfiles := [profileEx, profileEx2],
    subscriptions := [canceledSub, activeSubOfUser2],
    deployments := [], updateHistory := [] }

/-- A deployment row of user 1 referencing subscription 10. -/
def depInsertEx : DeploymentRow :=
  { id := 20, userId := 1, userEmail := "a@example.com",
    templateId := "notary-assistant-basic", dropletId := none, url := none,
    status := some "deploying", createdAt := 5, updatedAt := 5,
    subscriptionId := some 10, autoUpdateEnabled := false, updateSchedule := none }

/-- A deployment row of user 1 whose status is failed. -/
def failedRowEx : DeploymentRow :=
  { id := 21, userId := 1, userEmail := "a@example.com",
    templateId := "notary-assistant-basic", dropletId := some "d-1",
    url := some "https://x.example.com", status := some "failed",
    createdAt := 0, updatedAt := 0, subscriptionId := none,
    autoUpdateEnabled := false, updateSchedule := none }

/-- failedRowEx with its status overwritten to running. -/
def failedToRunningEx : DeploymentRow :=
  { failedRowEx with status := some "running" }

/-- A store holding failedRowEx and one update_history row for it. -/
def dbEx3 : DB :=
  { userProfiles := [profileEx], subscriptions := [canceledSub],
    deployments := [failedRowEx],
    updateHistory := [{ id := 2, deploymentId := some 21, updatedAt := 0,
                        details := "created" }] }

/-- An update_history row whose deployment_id is NULL. -/
def nullHistoryEx : UpdateHistoryRow :=
  { id := 1, deploymentId := none, updatedAt := 0, details := "auto-update" }



/-! ## Helper lemmas -/

/-- Every element of a filtered list satisfies the filter predicate. -/
theorem all_filter_self {α : Type} (p : α → Bool) (l : List α) :
    (l.filter p).all p = true := by
  rw [List.all_eq_true]
  intro x hx
  exact (List.mem_filter.mp hx).2

/-! ## Claim theorems -/

/-- C9: for every request handled by the middleware, if there is no
session and the path does not start with /login, /signup or
/auth/callback and is not exactly the root, the response is a redirect
to /login; every other request passes through unchanged. -/
theorem middleware_guard_characterisation (hasSession : Bool) (pathname : String) :
    (middleware hasSession pathname = MwResult.redirect "/login" ↔
      hasSession = false ∧ strStartsWith pathname "/login" = false ∧
      strStartsWith pathname "/signup" = false ∧
      strStartsWith pathname "/auth/callback" = false ∧ pathname ≠ "/") ∧
    (middleware hasSession pathname ≠ MwResult.redirect "/login" →
      middleware hasSession pathname = MwResult.next) := by
  cases hasSession <;>
  cases h1 : strStartsWith pathname "/login" <;>
  cases h2 : strStartsWith pathname "/signup" <;>
  cases h3 : strStartsWith pathname "/auth/callback" <;>
  by_cases hp : pathname = "/" <;>
  simp [middleware, publicRoutes, h1, h2, h3, hp]

/-- Closed instance of C9: a session-less request to /deployments is
redirected to /login, and the same request with a session passes through. -/
theorem middleware_guard_characterisation_witness :
    middleware false "/deployments" = MwResult.redirect "/login" ∧
    middleware true "/deployments" = MwResult.next :=
  ⟨(middleware_guard_characterisation false "/deployments").1.mpr
      ⟨rfl, by decide, by decide, by decide, by decide⟩,
   (middleware_guard_characterisation true "/deployments").2 (by decide)⟩

/-- C3: in handleDeploy with a signed-in user, when the
create-subscription response is not ok, the only request sent is the
subscription request (no deploy request), and the failure is surfaced as
an error message. -/
theorem handleDeploy_sub_failure_blocks_deploy (tok templateId tier : String)
    (deployOk : Bool) (deployUrl : String) :
    (handleDeploy (some tok) templateId tier false deployOk deployUrl).2 =
      [Request.createSubscription (templateId ++ "-" ++ tier) "pm_card_visa"] ∧
    ((handleDeploy (some tok) templateId tier false deployOk deployUrl).2.all
      (fun r => ! r.isDeployCall)) = true ∧
    (handleDeploy (some tok) templateId tier false deployOk deployUrl).1 =
      DeployOutcome.errorMsg "Failed to create subscription" :=
  ⟨rfl, rfl, rfl⟩

/-- C10: every request body handleDeploy sends carries the constant
payment_method_id pm_card_visa, and its plan_type or template_id equals
templateId-tier. -/
theorem handleDeploy_constant_payment_method (user : Option String)
    (templateId tier : String) (subOk deployOk : Bool) (deployUrl : String) :
    ((handleDeploy user templateId tier subOk deployOk deployUrl).2.all
      (fun r => r.paymentMethodId == "pm_card_visa" &&
                r.bodyId == (templateId ++ "-" ++ tier))) = true := by
  cases user <;> cases subOk <;> cases deployOk <;>
    simp [handleDeploy, Request.paymentMethodId, Request.bodyId]

/-- C2: deploy is write-after-confirm: on provider failure the store is
unchanged and the response is ProvisioningFailed; on provider success
exactly one new Deployment row with status deploying is prepended. -/
theorem deploy_write_after_confirm (db : DB) (uid : Nat)
    (email templateId : String) (newId now : Nat) :
    ((deploy db uid email templateId newId now ProvisionResult.err).1 = db ∧
     (deploy db uid email templateId newId now ProvisionResult.err).2 =
       DeployResponse.provisioningFailed) ∧
    ∀ dropletId url : String,
      ∃ r : DeploymentRow,
        (deploy db uid email templateId newId now
            (ProvisionResult.ok dropletId url)).1.deployments =
          r :: db.deployments ∧
        r.status = some "deploying" ∧ r.userId = uid ∧ r.url = some url :=
  ⟨⟨rfl, rfl⟩, fun _ _ => ⟨_, rfl, rfl, rfl, rfl⟩⟩

/-- C1 counterexample: in a store whose only subscription is canceled
(no active subscription exists at all), inserting a deployment that
references that subscription is admissible under the schema, refuting
the claim that an active subscription is required. -/
theorem deployment_insert_admits_inactive_subscription :
    deploymentInsertAdmissible dbEx 1 depInsertEx = true ∧
    depInsertEx.subscriptionId = some canceledSub.id ∧
    canceledSub ∈ dbEx.subscriptions ∧
    canceledSub.status = "canceled" ∧
    (dbEx.subscriptions.all (fun s => !(s.status == "active"))) = true := by
  decide

/-- C1 amended: an admissible deployment insert referencing subscription
sid requires that some subscription row with id sid exists (regardless
of its status), that the caller owns the new row, and that the owner has
a user profile. -/
theorem deployment_insert_requires_existing_subscription
    (db : DB) (uid : Nat) (d : DeploymentRow) (sid : Nat)
    (hadm : deploymentInsertAdmissible db uid d = true)
    (href : d.subscriptionId = some sid) :
    db.subscriptions.any (fun s => s.id == sid) = true ∧
    uid = d.userId ∧
    db.userProfiles.any (fun p => p.id == d.userId) = true := by
  unfold deploymentInsertAdmissible at hadm
  rw [href] at hadm
  simp only [Bool.and_eq_true] at hadm
  obtain ⟨⟨h1, h2⟩, h3⟩ := hadm
  exact ⟨h3, eq_of_beq h1, h2⟩

/-- Closed instance of the C1 amended theorem at the example store. -/
theorem deployment_insert_requires_existing_subscription_witness :
    dbEx.subscriptions.any (fun s => s.id == 10) = true ∧
    (1 : Nat) = depInsertEx.userId ∧
    dbEx.userProfiles.any (fun p => p.id == depInsertEx.userId) = true :=
  deployment_insert_requires_existing_subscription dbEx 1 depInsertEx 10
    (by decide) rfl

/-- C4: under the row-level-security policies, no SELECT, INSERT, UPDATE
or DELETE on a subscriptions or deployments row owned by a different
user is permitted. -/
theorem rls_cross_user_access_denied (uid : Nat) (cmd : SQLCmd)
    (s : SubscriptionRow) (d : DeploymentRow)
    (hs : s.userId ≠ uid) (hd : d.userId ≠ uid) :
    subscriptionsPolicyAllows uid cmd s = false ∧
    deploymentsPolicyAllows uid cmd d = false := by
  have hs' : (uid == s.userId) = false := by
    cases h : uid == s.userId
    · rfl
    · exact absurd (eq_of_beq h) (Ne.symm hs)
  have hd' : (uid == d.userId) = false := by
    cases h : uid == d.userId
    · rfl
    · exact absurd (eq_of_beq h) (Ne.symm hd)
  cases cmd <;>
    simp [subscriptionsPolicyAllows, deploymentsPolicyAllows, hs', hd']

/-- Closed instance of C4: user 2 may neither read user 1's subscription
nor update user 1's deployment. -/
theorem rls_cross_user_access_denied_witness :
    subscriptionsPolicyAllows 2 SQLCmd.select canceledSub = false ∧
    deploymentsPolicyAllows 2 SQLCmd.select depInsertEx = false :=
  rls_cross_user_access_denied 2 SQLCmd.select canceledSub depInsertEx
    (by decide) (by decide)

/-- C5 counterexample: the deployments page renders the hard-coded
dummyDeployments list: it has three entries while caller 1's persisted
deployments in the example store are empty, and its creation dates are
not in descending order -- so the page does not render the caller's
store-backed sequence ordered by creation time descending. -/
theorem deployments_page_ignores_store_and_order :
    dummyDeployments.length = 3 ∧
    (listDeploymentsSpec 1 dbEx).length = 0 ∧
    isDescendingOn (dummyDeployments.map (fun d => d.created)) = false := by
  decide

/-- C5 amended: the deployments page renders a fixed hard-coded list of
three sample deployments, independent of any caller or persisted store,
in ascending creation-date order, and performs no mutation. -/
theorem deployments_page_renders_fixed_dummy_list :
    dummyDeployments.map (fun d => d.name) =
      ["Notary AI Assistant", "Smart Document Processor",
       "ID Verification System"] ∧
    dummyDeployments.map (fun d => d.status) =
      ["running", "deploying", "stopped"] ∧
    isDescendingOn ((dummyDeployments.map (fun d => d.created)).reverse) = true := by
  decide

/-- C6 counterexample: the schema admits an UPDATE of a deployments row
from status failed to status running by its owner, although
failed-to-running is not an edge of the spec's state machine. -/
theorem deployment_status_update_escapes_state_machine :
    deploymentUpdateAdmissible 1 failedRowEx failedToRunningEx = true ∧
    failedRowEx.status = some "failed" ∧
    failedToRunningEx.status = some "running" ∧
    specStatusEdge "failed" "running" = false := by
  decide

/-- C6 amended: the deployments.status column is an unconstrained
nullable TEXT; the only check on an UPDATE is the row-ownership policy,
so an owner can move status between any two values whatsoever -- the
state machine is not enforced by any operation on the table. -/
theorem deployment_status_update_unconstrained
    (uid : Nat) (oldRow newRow : DeploymentRow) (s1 s2 : Option String)
    (h1 : uid = oldRow.userId) (h2 : uid = newRow.userId) :
    deploymentUpdateAdmissible uid { oldRow with status := s1 }
      { newRow with status := s2 } = true := by
  subst h1
  simp [deploymentUpdateAdmissible, h2]

/-- Closed instance of the C6 amended theorem: the owner may rewrite a
stopped deployment's status to an arbitrary string. -/
theorem deployment_status_update_unconstrained_witness :
    deploymentUpdateAdmissible 1 { failedRowEx with status := some "stopped" }
      { failedRowEx with status := some "bogus" } = true :=
  deployment_status_update_unconstrained 1 failedRowEx failedRowEx
    (some "stopped") (some "bogus") rfl rfl

/-- C7 counterexample: deleting a user_profiles row cascade-deletes the
user's subscriptions rows (ON DELETE CASCADE), so subscription rows are
removed from the table by an operation, refuting the claim that no
operation removes them. -/
theorem user_profile_delete_removes_subscription_rows :
    canceledSub ∈ dbEx.subscriptions ∧
    (deleteUserProfile dbEx 1).subscriptions = [] := by
  decide

/-- C7 amended: no RLS policy permits a DELETE on subscriptions (so a
caller can never hard-delete a subscription row directly), and the only
removal of a subscriptions row is the cascade from deleting its owning
user profile: every row surviving that cascade was in the store before
and belongs to another user. -/
theorem subscriptions_no_direct_delete_only_cascade :
    (∀ (uid : Nat) (s : SubscriptionRow),
      subscriptionsPolicyAllows uid SQLCmd.delete s = false) ∧
    (∀ (db : DB) (u : Nat) (s : SubscriptionRow),
      s ∈ (deleteUserProfile db u).subscriptions →
        s ∈ db.subscriptions ∧ s.userId ≠ u) := by
  constructor
  · intro uid s
    rfl
  · intro db u s hmem
    simp only [deleteUserProfile] at hmem
    have h := List.mem_filter.mp hmem
    refine ⟨h.1, ?_⟩
    simpa using h.2

/-- Closed instance of the C7 amended theorem: user 2's subscription
survives the cascade deletion of user 1's profile. -/
theorem subscriptions_no_direct_delete_only_cascade_witness :
    activeSubOfUser2 ∈ dbEx2.subscriptions ∧ activeSubOfUser2.userId ≠ 1 :=
  subscriptions_no_direct_delete_only_cascade.2 dbEx2 1 activeSubOfUser2
    (by decide)

/-- C8 counterexample: deployment_id of update_history is nullable, so a
row with a NULL deployment_id is admissible even in a store with no
deployments at all -- such a row references no parent Deployment,
refuting the claim that every row references an existing parent. -/
theorem update_history_null_parent_admissible :
    updateHistoryInsertAdmissible dbEx nullHistoryEx = true ∧
    nullHistoryEx.deploymentId = none ∧
    dbEx.deployments = [] := by
  decide

/-- C8 amended: update_history rows are append-only under the policies
(no UPDATE or DELETE is ever permitted); an admissible insert with a
non-NULL deployment_id references an existing deployments row (the
foreign key); and deleting a deployment cascade-deletes every
update_history row referencing it. -/
theorem update_history_append_only_fk_and_cascade :
    (∀ (db : DB) (uid : Nat) (h : UpdateHistoryRow),
      updateHistoryPolicyAllows db uid SQLCmd.update h = false ∧
      updateHistoryPolicyAllows db uid SQLCmd.delete h = false) ∧
    (∀ (db : DB) (h : UpdateHistoryRow) (did : Nat),
      updateHistoryInsertAdmissible db h = true → h.deploymentId = some did →
      db.deployments.any (fun d => d.id == did) = true) ∧
    (∀ (db : DB) (did : Nat),
      ((deleteDeployment db did).updateHistory.all
        (fun h => h.deploymentId != some did)) = true) := by
  refine ⟨fun db uid h => ⟨rfl, rfl⟩,
          fun db h did hadm href => ?_,
          fun db did => ?_⟩
  · unfold updateHistoryInsertAdmissible at hadm
    rw [href] at hadm
    exact hadm
  · show (db.updateHistory.filter
        (fun h => h.deploymentId != some did)).all
        (fun h => h.deploymentId != some did) = true
    exact all_filter_self _ _

/-- Closed instance of the C8 amended theorem at the example store with
one deployment and one history row. -/
theorem update_history_append_only_fk_and_cascade_witness :
    dbEx3.deployments.any (fun d => d.id == 21) = true :=
  update_history_append_only_fk_and_cascade.2.1 dbEx3
    { id := 3, deploymentId := some 21, updatedAt := 1, details := "upd" }
    21 (by decide) rfl

end AiStack
